import Mathlib

/-!
Verification of the schedule-agent reconciliation core: a shallow embedding
of the Notion/Google-Calendar/Dropbox scheduling assistant (duplicate
resolver, reconciliation orchestrator, folder mirror, date arithmetic),
with theorems settling the specification's testable properties.
-/

set_option maxHeartbeats 1000000

namespace MyAgents

/-! ### Dropbox folder mirror (`dropbox-service.ts`) -/

/-- Result of `DropboxService.createEventFolder`: the derived path and
whether the directory already existed before the call. -/
structure FolderCreationResult where
  path : String
  existed : Bool
deriving DecidableEq, Repr

/-- A `DropboxService` instance holds only the configured base path. -/
structure DropboxService where
  basePath : String
deriving DecidableEq, Repr

/-- The local filesystem state relevant to the folder mirror: the set of
directory paths that currently exist, as a list. -/
abbrev FileSystem := List String

/-- Embeds `node:path` `join` for the plain relative segments this service
produces (no separators, no `.`/`..` segments): concatenation with `/`. -/
def joinPath (a b : String) : String := a ++ "/" ++ b

/-- Embeds the regex test `/^\d{4}-\d{2}-\d{2}$/u` from
`DropboxService.validateDate`. -/
def isDateFormat (date : String) : Bool :=
  match date.toList with
  | [a, b, c, d, s1, e, f, s2, g, h] =>
    a.isDigit && b.isDigit && c.isDigit && d.isDigit && s1 = '-' &&
      e.isDigit && f.isDigit && s2 = '-' && g.isDigit && h.isDigit
  | _ => false

/-- Embeds JavaScript `String.prototype.trim`: drop leading and trailing
whitespace characters. -/
def trimChars (cs : List Char) : List Char :=
  ((cs.dropWhile Char.isWhitespace).reverse.dropWhile Char.isWhitespace).reverse

/-- Embeds `DropboxService.sanitizeName`:
`name.trim().replace(/[/:]/gu, "-")`. -/
def DropboxService.sanitizeName (name : String) : String :=
  String.mk ((trimChars name.toList).map (fun c => if c = '/' ∨ c = ':' then '-' else c))

/-- Embeds `DropboxService.createEventFolder`.  The filesystem is passed
explicitly; `existsSync` is membership, and `mkdirSync` (recursive) adds the
path, succeeding whether or not it existed.  An invalid date throws. -/
def DropboxService.createEventFolder (svc : DropboxService) (fs : FileSystem)
    (name date : String) : Except String (FileSystem × FolderCreationResult) :=
  if isDateFormat date then
    let year := date.take 4
    let safeName := DropboxService.sanitizeName name
    let fullPath := joinPath (joinPath svc.basePath year) (date ++ " " ++ safeName)
    let existed := fs.contains fullPath
    Except.ok (if existed then fs else fullPath :: fs, ⟨fullPath, existed⟩)
  else
    Except.error "date must be in yyyy-mm-dd format"

/-! ### Google Calendar client (`gcal-client.ts`): date arithmetic -/

/-- A calendar date as the numeric triple parsed by `nextDay` from a
`YYYY-MM-DD` string. -/
structure Ymd where
  year : Nat
  month : Nat
  day : Nat
deriving DecidableEq, Repr

/-- Gregorian leap-year rule, as used by the JavaScript `Date` object that
`nextDay` relies on for day-overflow normalization. -/
def isLeapYear (y : Nat) : Bool :=
  (y % 4 == 0 && y % 100 != 0) || y % 400 == 0

/-- Length of month `m` (1–12) of year `y` in the Gregorian calendar;
`0` outside `1 ≤ m ≤ 12`. -/
def daysInMonth (y m : Nat) : Nat :=
  if m = 2 then (if isLeapYear y then 29 else 28)
  else if m = 4 ∨ m = 6 ∨ m = 9 ∨ m = 11 then 30
  else if 1 ≤ m ∧ m ≤ 12 then 31
  else 0

/-- A triple is an in-range Gregorian date (year at least 1). -/
def ValidYmd (x : Ymd) : Prop :=
  1 ≤ x.year ∧ 1 ≤ x.month ∧ x.month ≤ 12 ∧ 1 ≤ x.day ∧
    x.day ≤ daysInMonth x.year x.month

instance (x : Ymd) : Decidable (ValidYmd x) := by
  unfold ValidYmd; infer_instance

/-- The day-overflow normalization of `new Date(year, month - 1, day + 1)`
in `nextDay` for in-range dates: increment the day, rolling over at month
and year boundaries.  The ECMAScript constructor's two-digit-year mapping
is applied first, by `jsConstructorYear` inside `nextDay`. -/
def nextDayYmd (x : Ymd) : Ymd :=
  if x.day + 1 ≤ daysInMonth x.year x.month then ⟨x.year, x.month, x.day + 1⟩
  else if x.month + 1 ≤ 12 then ⟨x.year, x.month + 1, 1⟩
  else ⟨x.year + 1, 1, 1⟩

/-- Embeds `String(n).padStart(2, "0")` for the month and day components
formatted by `nextDay`. -/
def pad2 (n : Nat) : String :=
  if n < 10 then "0" ++ toString n else toString n

/-- Formats a date triple the way `nextDay` does:
`` `${y}-${m.padStart(2,"0")}-${dd.padStart(2,"0")}` ``. -/
def formatYmd (x : Ymd) : String :=
  toString x.year ++ "-" ++ pad2 x.month ++ "-" ++ pad2 x.day

/-- Embeds JavaScript `String.prototype.split` with a single-character
separator. -/
def splitOnChar (sep : Char) : List Char → List (List Char)
  | [] => [[]]
  | c :: cs =>
    if c = sep then [] :: splitOnChar sep cs
    else
      match splitOnChar sep cs with
      | [] => [[c]]
      | h :: t => (c :: h) :: t

/-- Embeds JavaScript `Number(...)` on the digit runs produced by splitting
a well-formed date string (the only inputs the claims range over): `none`
models `NaN`/non-digit content. -/
def digitsToNat? (cs : List Char) : Option Nat :=
  if cs ≠ [] ∧ cs.all Char.isDigit then
    some (cs.foldl (fun acc c => 10 * acc + (c.toNat - 48)) 0)
  else none

/-- ECMAScript's two-digit-year rule in the `Date(year, month, day)`
constructor: a year value from 0 through 99 denotes `1900 + year`. -/
def jsConstructorYear (y : Nat) : Nat :=
  if y ≤ 99 then 1900 + y else y

/-- Embeds `nextDay` from `gcal-client.ts`: split on `-`, map `Number`,
build `new Date(year, month - 1, day + 1)` — whose constructor maps
two-digit years via `jsConstructorYear` before the day-overflow
normalization — and re-format.  Inputs that do not yield three digit runs
produce JavaScript `NaN` artifacts in the original; they are outside every
claim's scope and mapped through fallbacks here. -/
def nextDay (dateStr : String) : String :=
  match splitOnChar '-' dateStr.toList with
  | y :: m :: d :: _ =>
    formatYmd (nextDayYmd
      ⟨jsConstructorYear ((digitsToNat? y).getD 0),
       (digitsToNat? m).getD 0, (digitsToNat? d).getD 0⟩)
  | _ => dateStr

/-- Parses a `YYYY-MM-DD` string to a date triple exactly when it consists
of three digit runs separated by `-` (verification-side inverse of
`formatYmd`, mirroring `nextDay`'s own parsing). -/
def parseYmd (s : String) : Option Ymd :=
  match splitOnChar '-' s.toList with
  | [y, m, d] =>
    match digitsToNat? y, digitsToNat? m, digitsToNat? d with
    | some yn, some mn, some dn => some ⟨yn, mn, dn⟩
    | _, _, _ => none
  | _ => none

/-- Number of days in Gregorian years `1, …, y`. -/
def daysBeforeYear (y : Nat) : Nat :=
  365 * y + y / 4 - y / 100 + y / 400

/-- Number of days in months `1, …, m - 1` of year `y`
(`daysBeforeMonth y 1 = 0`, using `daysInMonth y 0 = 0`). -/
def daysBeforeMonth (y : Nat) : Nat → Nat
  | 0 => 0
  | m + 1 => daysBeforeMonth y m + daysInMonth y m

/-- Rata-die day count of a Gregorian date: consecutive calendar days have
counts differing by exactly one. -/
def toRataDie (x : Ymd) : Nat :=
  daysBeforeYear (x.year - 1) + daysBeforeMonth x.year x.month + x.day

/-! ### Google Calendar client: event construction -/

/-- One boundary of the all-day event body built by
`createGoogleCalendarEvent` (`date` plus fixed `timeZone`). -/
structure GCalDateSpec where
  date : String
  timeZone : String
deriving DecidableEq, Repr

/-- The request body built by `createGoogleCalendarEvent`. -/
structure GCalEvent where
  summary : String
  location : Option String
  description : Option String
  start : GCalDateSpec
  stop : GCalDateSpec
deriving DecidableEq, Repr

/-- Input shape `GCalEventInput` of `createGoogleCalendarEvent`. -/
structure GCalEventInput where
  name : String
  dateStart : String
  dateEnd : Option String
  place : Option String
  description : Option String
deriving DecidableEq, Repr

/-- Embeds the event object assembled by `createGoogleCalendarEvent` on the
authorized path: the stored end is `nextDay(dateEnd)` when `dateEnd` is
truthy and `nextDay(dateStart)` otherwise. -/
def buildGCalEvent (input : GCalEventInput) : GCalEvent :=
  { summary := input.name
    location := input.place
    description := input.description
    start := ⟨input.dateStart, "Asia/Seoul"⟩
    stop := ⟨(match input.dateEnd with
              | some e => if e ≠ "" then nextDay e else nextDay input.dateStart
              | none => nextDay input.dateStart), "Asia/Seoul"⟩ }

/-- C9: starting from a filesystem in which the derived folder is absent,
calling `createEventFolder` twice with identical valid arguments returns
`existed = false` on the first call and `existed = true` on the second, both
calls succeed, both return the byte-identical path, and the second call is a
no-op on the filesystem. -/
theorem createEventFolder_idempotent (svc : DropboxService) (fs : FileSystem)
    (name date : String)
    (hdate : isDateFormat date = true)
    (habs : fs.contains (joinPath (joinPath svc.basePath (date.take 4))
      (date ++ " " ++ DropboxService.sanitizeName name)) = false) :
    ∃ fs₁ p,
      svc.createEventFolder fs name date = Except.ok (fs₁, ⟨p, false⟩) ∧
      svc.createEventFolder fs₁ name date = Except.ok (fs₁, ⟨p, true⟩) := by
  have habs' : joinPath (joinPath svc.basePath (date.take 4))
      (date ++ " " ++ DropboxService.sanitizeName name) ∉ fs := by
    simpa using habs
  refine ⟨joinPath (joinPath svc.basePath (date.take 4))
      (date ++ " " ++ DropboxService.sanitizeName name) :: fs,
    joinPath (joinPath svc.basePath (date.take 4))
      (date ++ " " ++ DropboxService.sanitizeName name), ?_, ?_⟩ <;>
    simp [DropboxService.createEventFolder, hdate, habs', List.contains_cons]

/-- C9 witness: the theorem applied at a concrete service, empty filesystem,
name `AO Spine` and date `2026-03-10`. -/
theorem createEventFolder_idempotent_witness :
    isDateFormat "2026-03-10" = true ∧
    ∃ fs₁ p,
      DropboxService.createEventFolder ⟨"base"⟩ [] "AO Spine" "2026-03-10" =
        Except.ok (fs₁, ⟨p, false⟩) ∧
      DropboxService.createEventFolder ⟨"base"⟩ fs₁ "AO Spine" "2026-03-10" =
        Except.ok (fs₁, ⟨p, true⟩) :=
  ⟨by decide,
    createEventFolder_idempotent ⟨"base"⟩ [] "AO Spine" "2026-03-10"
      (by decide) (by rfl)⟩

/-! ### Notion client (`notion-client.ts`): property construction -/

/-- A Notion date value: `start` plus nullable `end` (here `stop`, since
`end` is reserved in Lean). -/
structure NotionDateVal where
  start : String
  stop : Option String
deriving DecidableEq, Repr

/-- The `ScheduleMutationInput` shape: every field optional, `none`
modelling an absent (`undefined`) field. -/
structure ScheduleMutationInput where
  name : Option String
  date_start : Option String
  date_end : Option String
  place : Option String
  category : Option String
  society : Option (List String)
  status : Option String
  topic : Option String
  link : Option String
  abstract_deadline : Option String
deriving DecidableEq, Repr

/-- Truthiness of an optional string under a JavaScript `if`. -/
def truthy : Option String → Bool
  | some s => !(s == "")
  | none => false

/-- The property-request object built by
`NotionScheduleClient.buildProperties`: an outer `none` means the key is
not added to the request; for the select/url/date fields `some none`
models an explicit `null` (clearing).  Title and rich-text payloads are
modelled by their text content. -/
structure NotionProperties where
  Name : Option String
  Date : Option NotionDateVal
  Place : Option String
  category : Option (Option String)
  society : Option (List String)
  status : Option (Option String)
  topic : Option String
  link : Option (Option String)
  abstract_deadline : Option (Option NotionDateVal)
deriving DecidableEq, Repr

/-- Embeds `NotionScheduleClient.buildProperties`: throws when a required
field is missing in create mode; in the `Date` property the `end` slot is
`input.date_end ?? null`. -/
def buildProperties (input : ScheduleMutationInput) (requireNameAndDate : Bool) :
    Except String NotionProperties := do
  let nameProp : Option String ←
    if truthy input.name then pure input.name
    else if requireNameAndDate then Except.error "name is required"
    else pure none
  let dateProp : Option NotionDateVal ←
    if truthy input.date_start then
      pure (some ⟨input.date_start.getD "", input.date_end⟩)
    else if requireNameAndDate then Except.error "date_start is required"
    else pure none
  pure
    { Name := nameProp
      Date := dateProp
      Place := input.place
      category := input.category.map (fun c => if c ≠ "" then some c else none)
      society := input.society
      status := input.status.map (fun st => if st ≠ "" then some st else none)
      topic := input.topic
      link := input.link.map (fun l => if l ≠ "" then some l else none)
      abstract_deadline := input.abstract_deadline.map
        (fun a => if a ≠ "" then some ⟨a, none⟩ else none) }

/-! ### add_schedule tool (`tools/add-schedule.ts`) -/

/-- What `notionClient.findDuplicate` yields on a match, as consumed by the
add tool (`page_id`, `url`, `name`, `date_start`). -/
structure NotionDup where
  page_id : String
  url : String
  name : String
  date_start : String
deriving DecidableEq, Repr

/-- Result shape of `findGoogleCalendarEvent` (`found` embeds the source's
`exists` field, reserved in Lean). -/
structure GCalFindResult where
  found : Bool
  eventId : Option String
  eventUrl : Option String
deriving DecidableEq, Repr

/-- The `GCalResult` shape of `gcal-client.ts`. -/
structure GCalResult where
  success : Bool
  message : String
  eventId : Option String
  eventUrl : Option String
deriving DecidableEq, Repr

/-- The scalar fields of `SchedulePageDetails` (the decoded property map
payload is opaque to every tool handler and carried nowhere in the claims,
so it is elided). -/
structure SchedulePageDetails where
  page_id : String
  url : String
  last_edited_time : String
deriving DecidableEq, Repr

/-- The zod-validated parameters of the `add_schedule` tool (`category`
has default `"Spine"`). -/
structure AddScheduleParams where
  name : String
  date_start : String
  date_end : Option String
  place : Option String
  category : String
  society : Option (List String)
  status : Option String
  topic : Option String
  link : Option String
  abstract_deadline : Option String
  create_folder : Option Bool
deriving DecidableEq, Repr

/-- The `ScheduleMutationInput` view of the add parameters, as consumed by
`notionClient.addSchedule(params)`. -/
def AddScheduleParams.toMutation (p : AddScheduleParams) : ScheduleMutationInput :=
  { name := some p.name
    date_start := some p.date_start
    date_end := p.date_end
    place := p.place
    category := some p.category
    society := p.society
    status := p.status
    topic := p.topic
    link := p.link
    abstract_deadline := p.abstract_deadline }

/-- Outcomes of the external calls the `add_schedule` handler can make,
supplied as inputs to the pure embedding; `Except.error` models a thrown
error (rejected promise) of that call. -/
structure AddEnv where
  notionFind : Except String (Option NotionDup)
  gcalFind : Except String GCalFindResult
  notionCreate : Except String SchedulePageDetails
  gcalCreate : Except String GCalResult
  folderCreate : Except String FolderCreationResult
deriving Repr

/-- The `notion` sub-result of the aggregate `add_schedule` response:
either `{ success: true, schedule }` or
`{ skipped: true, message, page_id, url }`. -/
inductive NotionSub where
  | created (schedule : SchedulePageDetails) : NotionSub
  | skipped (message page_id url : String) : NotionSub
deriving DecidableEq, Repr

/-- The JSON value returned by the `add_schedule` handler: the
fully-duplicate early return, the aggregate response, or the outer-catch
`isError` text. -/
inductive AddResult where
  | fullyDuplicate (success : Bool) (message : String)
      (notionPageId notionUrl notionName notionDate : String)
      (gcalEventId gcalEventUrl : Option String) : AddResult
  | aggregate (success : Bool) (notion : NotionSub) (googleCalendar : GCalResult)
      (folder : Option FolderCreationResult) : AddResult
  | failure (message : String) : AddResult
deriving DecidableEq, Repr

/-- The `success` field of an `add_schedule` response (`none` for the
`isError` text, which carries no such field). -/
def AddResult.successFlag : AddResult → Option Bool
  | .fullyDuplicate s _ _ _ _ _ _ _ => some s
  | .aggregate s _ _ _ => some s
  | .failure _ => none

/-- The `folder` attachment of an `add_schedule` response: `some fo` when
the response is the aggregate one (whose folder slot is `fo`), `none` for
the other response shapes. -/
def AddResult.folderAttachment : AddResult → Option (Option FolderCreationResult)
  | .aggregate _ _ _ fo => some fo
  | _ => none

/-- Which external calls the `add_schedule` handler performed, with the
arguments it passed (`none` = the call was never attempted). -/
structure AddEffects where
  notionFindCall : Option (String × String)
  gcalFindCall : Option (String × String)
  notionCreateCall : Option ScheduleMutationInput
  gcalCreateCall : Option GCalEventInput
  folderCall : Option (String × String)
deriving DecidableEq, Repr

/-- Embeds the `add_schedule` tool handler: the Notion duplicate query
(unguarded), the guarded Google Calendar duplicate query (a throw degrades
to `exists: false`), the fully-duplicate early return, the
create-or-skip step per backend (only the calendar create is guarded), the
aggregate response with its constant `success: true`, and the optional
folder side effect; any uncaught throw surfaces as the `failure` result
via the outer catch. -/
def addScheduleHandler (p : AddScheduleParams) (env : AddEnv) :
    AddResult × AddEffects :=
  match env.notionFind with
  | .error e =>
    (.failure ("Failed to add schedule: " ++ e),
     ⟨some (p.name, p.date_start), none, none, none, none⟩)
  | .ok notionDup =>
    let gcalDup : GCalFindResult :=
      match env.gcalFind with
      | .error _ => ⟨false, none, none⟩
      | .ok g => g
    let findEffects : AddEffects :=
      ⟨some (p.name, p.date_start), some (p.name, p.date_start), none, none, none⟩
    let afterResolve : NotionSub → AddEffects → AddResult × AddEffects :=
      fun notionResult eff1 =>
        let gcalInput : GCalEventInput :=
          ⟨p.name, p.date_start, p.date_end, p.place, p.topic⟩
        let gcalPair : GCalResult × AddEffects :=
          if gcalDup.found then
            (⟨false, "이미 Google Calendar에 등록되어 있습니다.",
              gcalDup.eventId, gcalDup.eventUrl⟩, eff1)
          else
            match env.gcalCreate with
            | .error e =>
              (⟨false, "Google Calendar error: " ++ e, none, none⟩,
               { eff1 with gcalCreateCall := some gcalInput })
            | .ok r =>
              (r, { eff1 with gcalCreateCall := some gcalInput })
        let gcalResult := gcalPair.1
        let eff2 := gcalPair.2
        if p.create_folder.getD false then
          match env.folderCreate with
          | .error e =>
            (.failure ("Failed to add schedule: " ++ e),
             { eff2 with folderCall := some (p.name, p.date_start) })
          | .ok f =>
            (.aggregate true notionResult gcalResult (some f),
             { eff2 with folderCall := some (p.name, p.date_start) })
        else
          (.aggregate true notionResult gcalResult none, eff2)
    match notionDup with
    | some dup =>
      if gcalDup.found then
        (.fullyDuplicate false "이미 등록된 일정입니다 (Notion + Google Calendar 모두 존재)."
           dup.page_id dup.url dup.name dup.date_start gcalDup.eventId gcalDup.eventUrl,
         findEffects)
      else
        afterResolve (.skipped "이미 Notion에 등록되어 있습니다." dup.page_id dup.url) findEffects
    | none =>
      match env.notionCreate with
      | .error e =>
        (.failure ("Failed to add schedule: " ++ e),
         { findEffects with notionCreateCall := some p.toMutation })
      | .ok created =>
        afterResolve (.created created)
          { findEffects with notionCreateCall := some p.toMutation }

/-! ### update_schedule tool (`tools/update-schedule.ts`) -/

/-- The zod-validated parameters of `update_schedule`: the `page_id` plus
the rest-spread `updates`. -/
structure UpdateScheduleParams where
  page_id : String
  updates : ScheduleMutationInput
deriving DecidableEq, Repr

/-- The two entries of `getSchedule`'s extracted property map that the
update tool reads: `properties.Name` decoded to its text (absent if the
page lacks the property or it decodes to a non-string) and
`properties.Date` decoded to a date object or `null`. -/
structure CurrentScheduleProps where
  Name : Option String
  Date : Option NotionDateVal
deriving DecidableEq, Repr

/-- The patch object passed to `updateGoogleCalendarEvent`: exactly the
fields copied from the update request. -/
structure GCalUpdateInput where
  name : Option String
  dateStart : Option String
  dateEnd : Option String
  place : Option String
  description : Option String
deriving DecidableEq, Repr

/-- Outcomes of the external calls the `update_schedule` handler makes. -/
structure UpdateEnv where
  getCurrent : Except String CurrentScheduleProps
  notionUpdate : Except String SchedulePageDetails
  gcalUpdate : Except String GCalResult
deriving Repr

/-- Which external calls the `update_schedule` handler performed, with
their arguments. -/
structure UpdateEffects where
  getCall : Option String
  notionUpdateCall : Option (String × ScheduleMutationInput)
  gcalUpdateCall : Option (String × String × GCalUpdateInput)
deriving DecidableEq, Repr

/-- The JSON value returned by the `update_schedule` handler (the nested
`notion: { success: true, schedule }` is flattened into the
`notionSuccess` flag plus the schedule). -/
inductive UpdateResult where
  | response (success : Bool) (notionSuccess : Bool)
      (schedule : SchedulePageDetails) (googleCalendar : GCalResult) : UpdateResult
  | failure (message : String) : UpdateResult
deriving DecidableEq, Repr

/-- Embeds the `update_schedule` tool handler: read the current record,
recover `oldName`/`oldDateStart`, update Notion, then patch the calendar
keyed by the old identity, skipping (with a reported sub-result) when the
old identity is not recoverable; uncaught throws surface via the outer
catch. -/
def updateScheduleHandler (p : UpdateScheduleParams) (env : UpdateEnv) :
    UpdateResult × UpdateEffects :=
  match env.getCurrent with
  | .error e =>
    (.failure ("Failed to update schedule: " ++ e), ⟨some p.page_id, none, none⟩)
  | .ok cur =>
    let oldName := cur.Name.getD ""
    let oldDateStart := (cur.Date.map (fun d => d.start)).getD ""
    match env.notionUpdate with
    | .error e =>
      (.failure ("Failed to update schedule: " ++ e),
       ⟨some p.page_id, some (p.page_id, p.updates), none⟩)
    | .ok notionResult =>
      if oldName ≠ "" ∧ oldDateStart ≠ "" then
        let gcalResult : GCalResult :=
          match env.gcalUpdate with
          | .error e => ⟨false, "Google Calendar error: " ++ e, none, none⟩
          | .ok r => r
        (.response true true notionResult gcalResult,
         ⟨some p.page_id, some (p.page_id, p.updates),
          some (oldName, oldDateStart,
            ⟨p.updates.name, p.updates.date_start, p.updates.date_end,
             p.updates.place, p.updates.topic⟩)⟩)
      else
        (.response true true notionResult
           ⟨false, "기존 일정의 이름/날짜를 확인할 수 없어 GCal 업데이트를 건너뜁니다.", none, none⟩,
         ⟨some p.page_id, some (p.page_id, p.updates), none⟩)

/-- Leap-year rule as a divisibility proposition. -/
theorem isLeapYear_dvd (y : Nat) :
    isLeapYear y = true ↔ (4 ∣ y ∧ ¬(100 ∣ y)) ∨ 400 ∣ y := by
  simp only [isLeapYear, Bool.or_eq_true, Bool.and_eq_true, beq_iff_eq, bne_iff_ne, ne_eq]
  omega

/-- One more year adds 366 days in leap years and 365 otherwise. -/
theorem daysBeforeYear_succ (y : Nat) :
    daysBeforeYear (y + 1) =
      daysBeforeYear y + (if isLeapYear (y + 1) then 366 else 365) := by
  have hl := isLeapYear_dvd (y + 1)
  cases hb : isLeapYear (y + 1) <;> rw [hb] at hl <;>
    simp only [Bool.false_eq_true, false_iff, true_iff, if_true, if_false,
      Bool.false_eq_true, reduceIte, daysBeforeYear] at hl ⊢ <;>
    omega

/-- Unfolding lemma for `daysBeforeMonth`. -/
theorem daysBeforeMonth_succ (y m : Nat) :
    daysBeforeMonth y (m + 1) = daysBeforeMonth y m + daysInMonth y m := rfl

/-- The months before December total 306 days plus February's length. -/
theorem daysBeforeMonth_12 (y : Nat) :
    daysBeforeMonth y 12 = 306 + daysInMonth y 2 := by
  have e2 : daysBeforeMonth y 2 = 31 := rfl
  have e3 : daysBeforeMonth y 3 = daysBeforeMonth y 2 + daysInMonth y 2 := rfl
  have e4 : daysBeforeMonth y 4 = daysBeforeMonth y 3 + 31 := rfl
  have e5 : daysBeforeMonth y 5 = daysBeforeMonth y 4 + 30 := rfl
  have e6 : daysBeforeMonth y 6 = daysBeforeMonth y 5 + 31 := rfl
  have e7 : daysBeforeMonth y 7 = daysBeforeMonth y 6 + 30 := rfl
  have e8 : daysBeforeMonth y 8 = daysBeforeMonth y 7 + 31 := rfl
  have e9 : daysBeforeMonth y 9 = daysBeforeMonth y 8 + 31 := rfl
  have e10 : daysBeforeMonth y 10 = daysBeforeMonth y 9 + 30 := rfl
  have e11 : daysBeforeMonth y 11 = daysBeforeMonth y 10 + 31 := rfl
  have e12 : daysBeforeMonth y 12 = daysBeforeMonth y 11 + 30 := rfl
  omega

/-- The day-overflow normalization of `nextDay` advances the rata-die day
count by exactly one on every valid date. -/
theorem toRataDie_nextDayYmd (x : Ymd) (hv : ValidYmd x) :
    toRataDie (nextDayYmd x) = toRataDie x + 1 := by
  obtain ⟨y, m, d⟩ := x
  obtain ⟨hy, hm1, hm12, hd1, hd⟩ := hv
  unfold nextDayYmd
  split_ifs with h1 h2
  · simp only [toRataDie]; omega
  · have hs := daysBeforeMonth_succ y m
    simp only [toRataDie] at *
    omega
  · have hm : m = 12 := by simp only at h2 hm12 ⊢; omega
    subst hm
    have hd31 : daysInMonth y 12 = 31 := rfl
    have hdd : d = 31 := by simp only [hd31] at hd; simp only at h1 ⊢; omega
    subst hdd
    obtain ⟨k, rfl⟩ : ∃ k, y = k + 1 := ⟨y - 1, by simp only at hy ⊢; omega⟩
    have hys := daysBeforeYear_succ k
    have h12 := daysBeforeMonth_12 (k + 1)
    have hfeb : daysInMonth (k + 1) 2 = if isLeapYear (k + 1) then 29 else 28 := rfl
    have hb1 : daysBeforeMonth (k + 1 + 1) 1 = 0 := rfl
    simp only [toRataDie, Nat.add_sub_cancel]
    cases hb : isLeapYear (k + 1) <;> rw [hb] at hys hfeb <;>
      simp only [if_true, if_false, Bool.false_eq_true, reduceIte] at hys hfeb <;>
      omega

/-- `nextDay` on a parseable date string is the normalized successor of
the triple with its year sent through the constructor's two-digit-year
mapping, re-formatted. -/
theorem nextDay_eq_of_parse (s : String) (x : Ymd) (hparse : parseYmd s = some x) :
    nextDay s = formatYmd (nextDayYmd ⟨jsConstructorYear x.year, x.month, x.day⟩) := by
  unfold parseYmd at hparse
  split at hparse
  case h_1 y m d heq =>
    split at hparse
    case h_1 yn mn dn hy hm hd =>
      injection hparse with hx
      subst hx
      unfold nextDay
      rw [heq]
      simp [hy, hm, hd]
    case h_2 => simp at hparse
  case h_2 => simp at hparse

/-- C6 counterexample: at the in-scope `YYYY-MM-DD` input
`date_end = 0050-03-12`, the created event's stored end is `1950-03-13`
(the ECMAScript `Date` constructor reads year 50 as 1950), which is not
the calendar day after `0050-03-12`: its rata-die count is nineteen
centuries off, refuting the claim as stated over all `YYYY-MM-DD` dates. -/
theorem gcal_end_two_digit_year_counterexample :
    (buildGCalEvent ⟨"Jubilee", "0050-03-10", some "0050-03-12", none, none⟩).stop.date =
      "1950-03-13" ∧
    parseYmd "0050-03-12" = some ⟨50, 3, 12⟩ ∧
    parseYmd "1950-03-13" = some ⟨1950, 3, 13⟩ ∧
    toRataDie ⟨1950, 3, 13⟩ ≠ toRataDie ⟨50, 3, 12⟩ + 1 :=
  ⟨rfl, rfl, rfl, by decide⟩

/-- C6 (amended): for every created all-day event whose governing dates
are valid `YYYY-MM-DD` strings with a four-digit year of at least 0100
(where the ECMAScript constructor's two-digit-year mapping is the
identity), the stored Google Calendar end date is exclusive: it is the
formatted successor (one rata-die day later) of `date_end` when `date_end`
is supplied (truthy), and of `date_start` otherwise, with the increment
correct across month and year boundaries; years 0–99 are instead read as
1900+year (see the counterexample). -/
theorem gcal_allDay_end_exclusive (inp : GCalEventInput) (s : String) (x : Ymd)
    (hs : (match inp.dateEnd with
           | some e => if e ≠ "" then e else inp.dateStart
           | none => inp.dateStart) = s)
    (hparse : parseYmd s = some x) (hv : ValidYmd x) (hy : 100 ≤ x.year) :
    (buildGCalEvent inp).stop.date = formatYmd (nextDayYmd x) ∧
    toRataDie (nextDayYmd x) = toRataDie x + 1 := by
  refine ⟨?_, toRataDie_nextDayYmd x hv⟩
  have hnd := nextDay_eq_of_parse s x hparse
  have hjy : jsConstructorYear x.year = x.year := by
    unfold jsConstructorYear
    rw [if_neg (by omega)]
  rw [hjy] at hnd
  simp only [buildGCalEvent]
  subst hs
  cases he : inp.dateEnd with
  | none => rw [he] at hnd; simpa using hnd
  | some e =>
    rw [he] at hnd
    by_cases hne : e = "" <;> simp [hne] at hnd ⊢ <;> exact hnd

/-- C6 witness: the spec's scenario `date_start = 2026-03-10`,
`date_end = 2026-03-12` stores calendar end `2026-03-13`. -/
theorem gcal_allDay_end_exclusive_witness :
    parseYmd "2026-03-12" = some ⟨2026, 3, 12⟩ ∧
    ValidYmd ⟨2026, 3, 12⟩ ∧
    100 ≤ (2026 : Nat) ∧
    (buildGCalEvent ⟨"APSS 2026", "2026-03-10", some "2026-03-12", none, none⟩).stop.date =
      formatYmd (nextDayYmd ⟨2026, 3, 12⟩) ∧
    formatYmd (nextDayYmd ⟨2026, 3, 12⟩) = "2026-03-13" :=
  ⟨by rfl, by decide, by decide,
    (gcal_allDay_end_exclusive ⟨"APSS 2026", "2026-03-10", some "2026-03-12", none, none⟩
      "2026-03-12" ⟨2026, 3, 12⟩ (by rfl) (by rfl) (by decide) (by decide)).1,
    by rfl⟩

/-- C10: the name sanitization trims and maps exactly `/` and `:` to `-`,
so the name-to-path map is not injective: the distinct names `AO/Spine` and
`AO:Spine` yield byte-identical sanitized names, and `createEventFolder`
resolves both to the same directory on the same date. -/
theorem sanitizeName_not_injective :
    ("AO/Spine" : String) ≠ "AO:Spine" ∧
    DropboxService.sanitizeName "AO/Spine" = DropboxService.sanitizeName "AO:Spine" ∧
    DropboxService.sanitizeName "  AO Spine " = "AO Spine" ∧
    DropboxService.sanitizeName "AO_Spine.2026" = "AO_Spine.2026" ∧
    DropboxService.createEventFolder ⟨"base"⟩ [] "AO/Spine" "2026-03-10" =
      DropboxService.createEventFolder ⟨"base"⟩ [] "AO:Spine" "2026-03-10" :=
  ⟨by decide, by rfl, by rfl, by rfl, by rfl⟩

/-- C5: evaluating `buildProperties` on an update that supplies only a new
`date_start` (the path taken for a start-date change without an explicit
end date) shows the Notion `Date` property is written with `end: null`,
collapsing a stored multi-day span instead of preserving it; and the
update tool forwards `dateEnd: undefined` to the calendar patch rather
than recomputing it from the stored end. -/
theorem buildProperties_collapses_span :
    buildProperties
        ⟨none, some "2026-03-11", none, none, none, none, none, none, none, none⟩ false =
      Except.ok ⟨none, some ⟨"2026-03-11", none⟩, none, none, none, none, none, none, none⟩ ∧
    (updateScheduleHandler
        ⟨"pid", ⟨none, some "2026-03-11", none, none, none, none, none, none, none, none⟩⟩
        ⟨.ok ⟨some "APSS 2026", some ⟨"2026-03-10", some "2026-03-12"⟩⟩,
         .ok ⟨"pid", "purl", "t"⟩, .ok ⟨true, "patched", none, none⟩⟩).2.gcalUpdateCall =
      some ("APSS 2026", "2026-03-10", ⟨none, some "2026-03-11", none, none, none⟩) :=
  ⟨rfl, rfl⟩

/-- C1 counterexample: at a concrete fully-duplicate add, the returned
response's overall `success` flag is `false`, not `true` as the claim
states (while indeed no create is attempted in either backend). -/
theorem addSchedule_fullyDuplicate_counterexample :
    (addScheduleHandler
        ⟨"APSS 2026", "2026-03-10", none, none, "Spine", none, none, none, none, none, none⟩
        ⟨.ok (some ⟨"pid", "purl", "APSS 2026", "2026-03-10"⟩),
         .ok ⟨true, some "eid", some "eurl"⟩, .ok ⟨"npid", "npurl", "t"⟩,
         .ok ⟨true, "created", none, none⟩, .ok ⟨"p", false⟩⟩).1.successFlag =
      some false ∧
    (addScheduleHandler
        ⟨"APSS 2026", "2026-03-10", none, none, "Spine", none, none, none, none, none, none⟩
        ⟨.ok (some ⟨"pid", "purl", "APSS 2026", "2026-03-10"⟩),
         .ok ⟨true, some "eid", some "eurl"⟩, .ok ⟨"npid", "npurl", "t"⟩,
         .ok ⟨true, "created", none, none⟩, .ok ⟨"p", false⟩⟩).2.notionCreateCall =
      none :=
  ⟨rfl, rfl⟩

/-- C1 (amended): on a fully-duplicate add the handler performs no create
in either backend and reports both backends' existing ids/urls in the
early-return response, but that response's overall `success` flag is
`false` (with a Korean "already registered" message), not `true`. -/
theorem addSchedule_fullyDuplicate_no_writes (p : AddScheduleParams) (env : AddEnv)
    (dup : NotionDup) (g : GCalFindResult)
    (hnf : env.notionFind = .ok (some dup)) (hgf : env.gcalFind = .ok g)
    (hex : g.found = true) :
    addScheduleHandler p env =
      (.fullyDuplicate false "이미 등록된 일정입니다 (Notion + Google Calendar 모두 존재)."
         dup.page_id dup.url dup.name dup.date_start g.eventId g.eventUrl,
       ⟨some (p.name, p.date_start), some (p.name, p.date_start), none, none, none⟩) := by
  simp [addScheduleHandler, hnf, hgf, hex]

/-- C1 witness: the amended theorem applied at a concrete duplicate add. -/
theorem addSchedule_fullyDuplicate_no_writes_witness :
    addScheduleHandler
        ⟨"APSS 2026", "2026-03-10", none, none, "Spine", none, none, none, none, none, none⟩
        ⟨.ok (some ⟨"pid", "purl", "APSS 2026", "2026-03-10"⟩),
         .ok ⟨true, some "eid", some "eurl"⟩, .ok ⟨"npid", "npurl", "t"⟩,
         .ok ⟨true, "created", none, none⟩, .ok ⟨"p", false⟩⟩ =
      (.fullyDuplicate false "이미 등록된 일정입니다 (Notion + Google Calendar 모두 존재)."
         "pid" "purl" "APSS 2026" "2026-03-10" (some "eid") (some "eurl"),
       ⟨some ("APSS 2026", "2026-03-10"), some ("APSS 2026", "2026-03-10"),
        none, none, none⟩) :=
  addSchedule_fullyDuplicate_no_writes _ _ _ _ rfl rfl rfl

/-- C2 counterexample: when the Notion side is skipped as a duplicate and
the only attempted write — the calendar create — throws, every attempted
write has failed, yet the aggregate response still reports overall
`success: true`, contradicting the claimed "true unless every attempted
write failed" rule. -/
theorem addSchedule_success_flag_counterexample :
    addScheduleHandler
        ⟨"APSS 2026", "2026-03-10", none, none, "Spine", none, none, none, none, none, none⟩
        ⟨.ok (some ⟨"pid", "purl", "APSS 2026", "2026-03-10"⟩),
         .ok ⟨false, none, none⟩, .ok ⟨"npid", "npurl", "t"⟩,
         .error "invalid_grant", .ok ⟨"p", false⟩⟩ =
      (.aggregate true (.skipped "이미 Notion에 등록되어 있습니다." "pid" "purl")
         ⟨false, "Google Calendar error: invalid_grant", none, none⟩ none,
       ⟨some ("APSS 2026", "2026-03-10"), some ("APSS 2026", "2026-03-10"),
        none, some ⟨"APSS 2026", "2026-03-10", none, none, none⟩, none⟩) :=
  rfl

/-- C2 (amended): the aggregate response's overall `success` flag is the
constant `true` whenever the handler reaches aggregation, regardless of
the sub-results; in particular, in the claimed scenario — Notion create
succeeds, calendar create throws — the response carries the created
schedule, a calendar sub-result with `success: false` and the originating
error message, and overall `success: true`. -/
theorem addSchedule_partial_success (p : AddScheduleParams) (env : AddEnv)
    (s : SchedulePageDetails) (m : String)
    (hnf : env.notionFind = .ok none) (hgf : env.gcalFind = .ok ⟨false, none, none⟩)
    (hnc : env.notionCreate = .ok s) (hgc : env.gcalCreate = .error m)
    (hcf : p.create_folder = none) :
    (addScheduleHandler p env).1 =
      .aggregate true (.created s)
        ⟨false, "Google Calendar error: " ++ m, none, none⟩ none ∧
    (addScheduleHandler p env).1.successFlag = some true := by
  have h : (addScheduleHandler p env).1 =
      .aggregate true (.created s)
        ⟨false, "Google Calendar error: " ++ m, none, none⟩ none := by
    simp [addScheduleHandler, hnf, hgf, hnc, hgc, hcf]
  exact ⟨h, by rw [h]; rfl⟩

/-- C2 witness: the amended theorem applied at the concrete auth-error
scenario. -/
theorem addSchedule_partial_success_witness :
    (addScheduleHandler
        ⟨"APSS 2026", "2026-03-10", none, none, "Spine", none, none, none, none, none, none⟩
        ⟨.ok none, .ok ⟨false, none, none⟩, .ok ⟨"npid", "npurl", "t"⟩,
         .error "invalid_grant", .ok ⟨"p", false⟩⟩).1 =
      .aggregate true (.created ⟨"npid", "npurl", "t"⟩)
        ⟨false, "Google Calendar error: invalid_grant", none, none⟩ none :=
  (addSchedule_partial_success _ _ _ _ rfl rfl rfl rfl rfl).1

/-- C3 counterexample: a thrown Notion duplicate query aborts the whole
call via the outer catch, and the Google Calendar duplicate query is never
attempted — contradicting the claim that a transport failure of either
duplicate query merely degrades that backend's contribution. -/
theorem addSchedule_notionFind_abort_counterexample :
    addScheduleHandler
        ⟨"APSS 2026", "2026-03-10", none, none, "Spine", none, none, none, none, none, none⟩
        ⟨.error "ECONNRESET", .ok ⟨false, none, none⟩, .ok ⟨"npid", "npurl", "t"⟩,
         .ok ⟨true, "created", none, none⟩, .ok ⟨"p", false⟩⟩ =
      (.failure "Failed to add schedule: ECONNRESET",
       ⟨some ("APSS 2026", "2026-03-10"), none, none, none, none⟩) :=
  rfl

/-- C3 (amended): given a successful Notion duplicate query, a transport
failure thrown by the Google Calendar duplicate query degrades the
calendar contribution to `exists: false` — the handler behaves exactly as
if the calendar had reported no match — and, with the Notion steps
succeeding, the call never ends in the outer-catch failure (the four-way
classification is total there); a Notion duplicate-query failure, by
contrast, aborts the whole call before the calendar query. -/
theorem addSchedule_gcalFind_degrades (p : AddScheduleParams) (env : AddEnv)
    (nd : Option NotionDup) (e : String) (s : SchedulePageDetails)
    (f : FolderCreationResult)
    (hnf : env.notionFind = .ok nd) (hgf : env.gcalFind = .error e)
    (hnc : env.notionCreate = .ok s) (hfc : env.folderCreate = .ok f) :
    addScheduleHandler p env =
      addScheduleHandler p { env with gcalFind := .ok ⟨false, none, none⟩ } ∧
    ∀ msg, (addScheduleHandler p env).1 ≠ .failure msg := by
  constructor
  · simp [addScheduleHandler, hnf, hgf]
  · intro msg
    rcases hgc : env.gcalCreate with e2 | r <;> rcases nd with _ | dup <;>
      simp [addScheduleHandler, hnf, hgf, hnc, hfc, hgc] <;>
      split_ifs <;> simp

/-- C3 witness: the amended theorem applied at a concrete calendar-query
outage. -/
theorem addSchedule_gcalFind_degrades_witness :
    (addScheduleHandler
        ⟨"APSS 2026", "2026-03-10", none, none, "Spine", none, none, none, none, none, none⟩
        ⟨.ok none, .error "ETIMEDOUT", .ok ⟨"npid", "npurl", "t"⟩,
         .ok ⟨true, "created", none, none⟩, .ok ⟨"p", false⟩⟩ =
      addScheduleHandler
        ⟨"APSS 2026", "2026-03-10", none, none, "Spine", none, none, none, none, none, none⟩
        ⟨.ok none, .ok ⟨false, none, none⟩, .ok ⟨"npid", "npurl", "t"⟩,
         .ok ⟨true, "created", none, none⟩, .ok ⟨"p", false⟩⟩) ∧
    ∀ msg,
      (addScheduleHandler
        ⟨"APSS 2026", "2026-03-10", none, none, "Spine", none, none, none, none, none, none⟩
        ⟨.ok none, .error "ETIMEDOUT", .ok ⟨"npid", "npurl", "t"⟩,
         .ok ⟨true, "created", none, none⟩, .ok ⟨"p", false⟩⟩).1 ≠ .failure msg :=
  addSchedule_gcalFind_degrades _ _ _ _ _ _ rfl rfl rfl rfl

/-- C4 counterexample: when the Notion create throws, the whole call fails
via the outer catch and the Google Calendar create is never attempted —
the claimed write independence does not hold in this direction. -/
theorem addSchedule_notionCreate_abort_counterexample :
    addScheduleHandler
        ⟨"APSS 2026", "2026-03-10", none, none, "Spine", none, none, none, none, none, none⟩
        ⟨.ok none, .ok ⟨false, none, none⟩, .error "validation_error",
         .ok ⟨true, "created", none, none⟩, .ok ⟨"p", false⟩⟩ =
      (.failure "Failed to add schedule: validation_error",
       ⟨some ("APSS 2026", "2026-03-10"), some ("APSS 2026", "2026-03-10"),
        some (AddScheduleParams.toMutation
          ⟨"APSS 2026", "2026-03-10", none, none, "Spine", none, none, none, none, none,
           none⟩),
        none, none⟩) :=
  rfl

/-- C4 (amended): a thrown Google Calendar create does not suppress the
Notion outcome — the calendar create is attempted and both sub-results
appear in the aggregate response; in the opposite direction the
independence fails (a thrown Notion create aborts the call before the
calendar create, per the counterexample). -/
theorem addSchedule_gcal_failure_both_reported (p : AddScheduleParams) (env : AddEnv)
    (s : SchedulePageDetails) (m : String)
    (hnf : env.notionFind = .ok none) (hgf : env.gcalFind = .ok ⟨false, none, none⟩)
    (hnc : env.notionCreate = .ok s) (hgc : env.gcalCreate = .error m)
    (hcf : p.create_folder = none) :
    (addScheduleHandler p env).2.gcalCreateCall =
      some ⟨p.name, p.date_start, p.date_end, p.place, p.topic⟩ ∧
    (addScheduleHandler p env).2.notionCreateCall = some p.toMutation ∧
    ∃ gcalSub, (addScheduleHandler p env).1 = .aggregate true (.created s) gcalSub none ∧
      gcalSub.success = false ∧ gcalSub.message = "Google Calendar error: " ++ m := by
  refine ⟨?_, ?_, ⟨false, "Google Calendar error: " ++ m, none, none⟩, ?_, rfl, rfl⟩ <;>
    simp [addScheduleHandler, hnf, hgf, hnc, hgc, hcf]

/-- C4 witness: the amended theorem applied at a concrete calendar-create
failure. -/
theorem addSchedule_gcal_failure_both_reported_witness :
    (addScheduleHandler
        ⟨"APSS 2026", "2026-03-10", none, none, "Spine", none, none, none, none, none, none⟩
        ⟨.ok none, .ok ⟨false, none, none⟩, .ok ⟨"npid", "npurl", "t"⟩,
         .error "boom", .ok ⟨"p", false⟩⟩).2.gcalCreateCall =
      some ⟨"APSS 2026", "2026-03-10", none, none, none⟩ ∧
    (addScheduleHandler
        ⟨"APSS 2026", "2026-03-10", none, none, "Spine", none, none, none, none, none, none⟩
        ⟨.ok none, .ok ⟨false, none, none⟩, .ok ⟨"npid", "npurl", "t"⟩,
         .error "boom", .ok ⟨"p", false⟩⟩).2.notionCreateCall =
      some (AddScheduleParams.toMutation
        ⟨"APSS 2026", "2026-03-10", none, none, "Spine", none, none, none, none, none,
         none⟩) ∧
    ∃ gcalSub,
      (addScheduleHandler
        ⟨"APSS 2026", "2026-03-10", none, none, "Spine", none, none, none, none, none, none⟩
        ⟨.ok none, .ok ⟨false, none, none⟩, .ok ⟨"npid", "npurl", "t"⟩,
         .error "boom", .ok ⟨"p", false⟩⟩).1 =
        .aggregate true (.created ⟨"npid", "npurl", "t"⟩) gcalSub none ∧
      gcalSub.success = false ∧ gcalSub.message = "Google Calendar error: " ++ "boom" :=
  addSchedule_gcal_failure_both_reported _ _ _ _ rfl rfl rfl rfl rfl

/-- C8 counterexample: with `create_folder = true` but a fully-duplicate
classification, the early return skips the folder side effect entirely,
so it is not executed "regardless of classification" as claimed. -/
theorem addSchedule_folder_skipped_counterexample :
    (addScheduleHandler
        ⟨"APSS 2026", "2026-03-10", none, none, "Spine", none, none, none, none, none,
         some true⟩
        ⟨.ok (some ⟨"pid", "purl", "APSS 2026", "2026-03-10"⟩),
         .ok ⟨true, some "eid", some "eurl"⟩, .ok ⟨"npid", "npurl", "t"⟩,
         .ok ⟨true, "created", none, none⟩, .ok ⟨"p", false⟩⟩).2.folderCall = none :=
  rfl

/-- C8 (amended): with `create_folder = true`, whenever the handler reaches
the aggregate response (the classification is not fully-duplicate and the
Notion steps did not throw), the folder side effect is executed keyed by
the requested `name` and `date_start` — never by a resolved or
pre-existing record's identity — and its result is attached to the
response. -/
theorem addSchedule_folder_keyed_by_request (p : AddScheduleParams) (env : AddEnv)
    (nd : Option NotionDup) (g : GCalFindResult) (s : SchedulePageDetails)
    (f : FolderCreationResult)
    (hcf : p.create_folder = some true)
    (hnf : env.notionFind = .ok nd) (hgf : env.gcalFind = .ok g)
    (hnc : env.notionCreate = .ok s) (hfc : env.folderCreate = .ok f)
    (hnotfull : nd = none ∨ g.found = false) :
    (addScheduleHandler p env).2.folderCall = some (p.name, p.date_start) ∧
    (addScheduleHandler p env).1.folderAttachment = some (some f) ∧
    (addScheduleHandler p env).1.successFlag = some true := by
  obtain ⟨gf, ge, gu⟩ := g
  rcases hgc : env.gcalCreate with e2 | r <;> cases gf <;> rcases nd with _ | dup <;>
    simp only [or_self, or_false, false_or, reduceCtorEq] at hnotfull <;>
    first
      | exact hnotfull.elim
      | (refine ⟨?_, ?_, ?_⟩ <;>
          simp [addScheduleHandler, hnf, hgf, hnc, hfc, hgc, hcf,
            AddResult.folderAttachment, AddResult.successFlag])

/-- C8 witness: the amended theorem applied at a concrete no-duplicate add
with `create_folder = true`. -/
theorem addSchedule_folder_keyed_by_request_witness :
    (addScheduleHandler
        ⟨"APSS 2026", "2026-03-10", none, none, "Spine", none, none, none, none, none,
         some true⟩
        ⟨.ok none, .ok ⟨false, none, none⟩, .ok ⟨"npid", "npurl", "t"⟩,
         .ok ⟨true, "created", none, none⟩, .ok ⟨"p", false⟩⟩).2.folderCall =
      some ("APSS 2026", "2026-03-10") ∧
    (addScheduleHandler
        ⟨"APSS 2026", "2026-03-10", none, none, "Spine", none, none, none, none, none,
         some true⟩
        ⟨.ok none, .ok ⟨false, none, none⟩, .ok ⟨"npid", "npurl", "t"⟩,
         .ok ⟨true, "created", none, none⟩, .ok ⟨"p", false⟩⟩).1.folderAttachment =
      some (some ⟨"p", false⟩) ∧
    (addScheduleHandler
        ⟨"APSS 2026", "2026-03-10", none, none, "Spine", none, none, none, none, none,
         some true⟩
        ⟨.ok none, .ok ⟨false, none, none⟩, .ok ⟨"npid", "npurl", "t"⟩,
         .ok ⟨true, "created", none, none⟩, .ok ⟨"p", false⟩⟩).1.successFlag =
      some true :=
  addSchedule_folder_keyed_by_request
    ⟨"APSS 2026", "2026-03-10", none, none, "Spine", none, none, none, none, none,
     some true⟩
    ⟨.ok none, .ok ⟨false, none, none⟩, .ok ⟨"npid", "npurl", "t"⟩,
     .ok ⟨true, "created", none, none⟩, .ok ⟨"p", false⟩⟩
    none ⟨false, none, none⟩ ⟨"npid", "npurl", "t"⟩ ⟨"p", false⟩
    rfl rfl rfl rfl rfl (Or.inl rfl)

/-- C7: the update handler reads the current Notion record, recovers the
old identity, applies the requested update to Notion, then patches the
calendar keyed by the old name and old start date; when either part of the
old identity cannot be recovered, the calendar step is skipped with a
reported sub-result and the overall response still has `success = true`. -/
theorem updateSchedule_old_identity (p : UpdateScheduleParams) (env : UpdateEnv)
    (cur : CurrentScheduleProps) (s : SchedulePageDetails)
    (hget : env.getCurrent = .ok cur) (hupd : env.notionUpdate = .ok s) :
    ∃ g, updateScheduleHandler p env =
      (.response true true s g,
       ⟨some p.page_id, some (p.page_id, p.updates),
        if cur.Name.getD "" ≠ "" ∧ (cur.Date.map (fun d => d.start)).getD "" ≠ "" then
          some (cur.Name.getD "", (cur.Date.map (fun d => d.start)).getD "",
            ⟨p.updates.name, p.updates.date_start, p.updates.date_end,
             p.updates.place, p.updates.topic⟩)
        else none⟩) ∧
      ((cur.Name.getD "" = "" ∨ (cur.Date.map (fun d => d.start)).getD "" = "") →
        g = ⟨false, "기존 일정의 이름/날짜를 확인할 수 없어 GCal 업데이트를 건너뜁니다.", none, none⟩) := by
  by_cases h : cur.Name.getD "" ≠ "" ∧ (cur.Date.map (fun d => d.start)).getD "" ≠ ""
  · rcases hg : env.gcalUpdate with e | r
    · exact ⟨⟨false, "Google Calendar error: " ++ e, none, none⟩,
        by simp [updateScheduleHandler, hget, hupd, hg, h], by tauto⟩
    · exact ⟨r, by simp [updateScheduleHandler, hget, hupd, hg, h], by tauto⟩
  · exact ⟨⟨false, "기존 일정의 이름/날짜를 확인할 수 없어 GCal 업데이트를 건너뜁니다.", none, none⟩,
      by simp [updateScheduleHandler, hget, hupd, h], fun _ => rfl⟩

/-- C7 witness: the theorem applied at a record whose `Name` property is
unreadable, showing the skip sub-result and `success = true`. -/
theorem updateSchedule_old_identity_witness :
    ∃ g, updateScheduleHandler
        ⟨"pid", ⟨none, none, none, some "Seoul", none, none, none, none, none, none⟩⟩
        ⟨.ok ⟨none, some ⟨"2026-03-10", none⟩⟩, .ok ⟨"pid", "purl", "t"⟩,
         .ok ⟨true, "patched", none, none⟩⟩ =
      (.response true true ⟨"pid", "purl", "t"⟩ g,
       ⟨some "pid",
        some ("pid", ⟨none, none, none, some "Seoul", none, none, none, none, none, none⟩),
        if (Option.getD (none : Option String) "" ≠ "") ∧
            (Option.getD (Option.map (fun d => d.start)
              (some (⟨"2026-03-10", none⟩ : NotionDateVal))) "" ≠ "") then
          some (Option.getD (none : Option String) "",
            Option.getD (Option.map (fun d => d.start)
              (some (⟨"2026-03-10", none⟩ : NotionDateVal))) "",
            ⟨none, none, none, some "Seoul", none⟩)
        else none⟩) ∧
      ((Option.getD (none : Option String) "" = "" ∨
          Option.getD (Option.map (fun d => d.start)
            (some (⟨"2026-03-10", none⟩ : NotionDateVal))) "" = "") →
        g = ⟨false, "기존 일정의 이름/날짜를 확인할 수 없어 GCal 업데이트를 건너뜁니다.", none, none⟩) :=
  updateSchedule_old_identity
    ⟨"pid", ⟨none, none, none, some "Seoul", none, none, none, none, none, none⟩⟩
    ⟨.ok ⟨none, some ⟨"2026-03-10", none⟩⟩, .ok ⟨"pid", "purl", "t"⟩,
     .ok ⟨true, "patched", none, none⟩⟩
    ⟨none, some ⟨"2026-03-10", none⟩⟩ ⟨"pid", "purl", "t"⟩ rfl rfl

end MyAgents
